import Mathlib

/-!
Shallow embedding of `app.py` (MQTT smart-home device simulator).

The embedding translates the source functions of `src/app.py`:
string topics are Lean `String`s, Python dicts are association lists
over a small value type `PyVal`, randomness (`random.choice`,
`random.uniform`, `random.randint`) is passed in explicitly as a
`Draws` record, and the publish/subscribe side effects of a run are
recorded as a list of `Event`s.  Fallible operations (`KeyError`,
`IndexError`, uncaught exceptions) are `Option`/crash flags.
-/

namespace App

/-- Python value type as used by the dicts in `app.py`.
`numStr p q` stands for the string `f'{x:.pf}'` produced by an f-string
with `p` fractional digits; `q` is the numeric value of that rendered
string (i.e. `x` rounded to `p` decimal places). -/
inductive PyVal where
  | str (s : String)
  | bool (b : Bool)
  | int (n : Int)
  | numStr (p : Nat) (q : ℚ)
  | strlist (l : List String)
deriving DecidableEq, Repr

/-- A Python dict with string keys, as an association list in insertion
order (all dicts in `app.py` have string keys). -/
abbrev Config := List (String × PyVal)

/-- Model of Python's `s.split('/')` on the character list:
consecutive separators produce empty segments, and the empty string
splits to one empty segment, exactly as in Python. -/
def splitChars : List Char → List (List Char)
  | [] => [[]]
  | c :: rest =>
    if c = '/' then [] :: splitChars rest
    else
      match splitChars rest with
      | [] => [[c]]
      | r :: rs => (c :: r) :: rs

/-- `topic.split('/')` from the source, as a list of `String`s. -/
def pySplitSlash (s : String) : List String :=
  (splitChars s.data).map fun l => String.mk l

/-- Model of Python's `'/'.join(parts)`. -/
def joinSlash : List String → String
  | [] => ""
  | [s] => s
  | s :: rest => s ++ "/" ++ joinSlash rest

/-- `needle` is a prefix of `hay` (character lists). -/
def startsWithChars : List Char → List Char → Bool
  | [], _ => true
  | _ :: _, [] => false
  | a :: as, b :: bs => a = b && startsWithChars as bs

/-- Model of Python's `needle in hay` substring test. -/
def containsChars (needle : List Char) : List Char → Bool
  | [] => startsWithChars needle []
  | c :: t => startsWithChars needle (c :: t) || containsChars needle t

/-- `sub in s` from the source (Python substring containment). -/
def pyIn (sub s : String) : Bool := containsChars sub.data s.data

/-- `round(x * 10^p) / 10^p`: the numeric value of `f'{x:.pf}'`
(fixed-point rendering rounds to `p` fractional digits; the half-way
tie direction of binary floats is immaterial to every range claim). -/
def roundTo (p : Nat) (q : ℚ) : ℚ :=
  ((round (q * (10 : ℚ) ^ p) : ℤ) : ℚ) / (10 : ℚ) ^ p

/-- Render the fixed-point decimal string `f'{q:.pf}'` for a value `q`
already rounded to `p` places. -/
def renderFixed (p : Nat) (q : ℚ) : String :=
  let scaled : Int := round (q * (10 : ℚ) ^ p)
  let sign := if scaled < 0 then "-" else ""
  let a := scaled.natAbs
  if p = 0 then sign ++ toString a
  else
    let ip := a / 10 ^ p
    let fp := a % 10 ^ p
    let fs := toString fp
    sign ++ toString ip ++ "." ++ String.mk (List.replicate (p - fs.length) '0') ++ fs

/-- Render one dict value the way Python's `json.dumps` does. -/
def pyValRender : PyVal → String
  | .str s => "\"" ++ s ++ "\""
  | .bool b => if b then "true" else "false"
  | .int n => toString n
  | .numStr p q => "\"" ++ renderFixed p q ++ "\""
  | .strlist l => "[" ++ String.intercalate ", " (l.map fun s => "\"" ++ s ++ "\"") ++ "]"

/-- `json.dumps(d)` with Python's default separators. -/
def pyDumps (d : Config) : String :=
  "\x7b" ++ String.intercalate ", " (d.map fun kv => "\"" ++ kv.1 ++ "\": " ++ pyValRender kv.2) ++ "\x7d"

/-- `config['state_topic']` read as a string (`none` models the
`KeyError` raised when the key is absent). -/
def config_state_topic (c : Config) : Option String :=
  match c.lookup "state_topic" with
  | some (.str s) => some s
  | _ => none

/-- `get_parent_topic` from `app.py`:
`'/'.join(config_template['state_topic'].split('/')[:-1])`. -/
def get_parent_topic (c : Config) : Option String :=
  (config_state_topic c).map fun st => joinSlash (pySplitSlash st).dropLast

/-- `template_config_motion` from `app.py`. -/
def template_config_motion (name : String) : Config :=
  [ ("name", .str name),
    ("unique_id", .str (name ++ "_motion")),
    ("device_class", .str "motion"),
    ("state_topic", .str ("homeassistant/binary_sensor/" ++ name ++ "/state")) ]

/-- `template_config_temperature` from `app.py`. -/
def template_config_temperature (name : String) : Config :=
  [ ("name", .str (name ++ " Temperature")),
    ("device_class", .str "temperature"),
    ("state_topic", .str ("homeassistant/sensor/" ++ name ++ "T/state")),
    ("unit_of_measurement", .str "F"),
    ("value_template", .str "\x7b\x7b value_json.temperature \x7d\x7d") ]

/-- `template_config_humidity` from `app.py`. -/
def template_config_humidity (name : String) : Config :=
  [ ("name", .str (name ++ " Humidity")),
    ("device_class", .str "humidity"),
    ("state_topic", .str ("homeassistant/sensor/" ++ name ++ "H/state")),
    ("unit_of_measurement", .str "%"),
    ("value_template", .str "\x7b\x7b value_json.humidity \x7d\x7d") ]

/-- `template_config_light` from `app.py`. -/
def template_config_light (name : String) : Config :=
  [ ("name", .str name),
    ("unique_id", .str (name ++ "_light")),
    ("command_topic", .str ("homeassistant/light/" ++ name ++ "/set")),
    ("state_topic", .str ("homeassistant/light/" ++ name ++ "/state")),
    ("schema", .str "json"),
    ("brightness", .bool true) ]

/-- `template_config_switch` from `app.py`. -/
def template_config_switch (name : String) : Config :=
  [ ("name", .str name),
    ("unique_id", .str (name ++ "_switch")),
    ("command_topic", .str ("homeassistant/switch/" ++ name ++ "/set")),
    ("state_topic", .str ("homeassistant/switch/" ++ name ++ "/state")),
    ("value_template", .str "\x7b\x7b value_json.state \x7d\x7d") ]

/-- `template_config_climate` from `app.py`. -/
def template_config_climate (name : String) : Config :=
  [ ("name", .str name),
    ("unique_id", .str (name ++ "_climate")),
    ("mode_cmd_t", .str ("homeassistant/climate/" ++ name ++ "/thermostatModeCmd")),
    ("mode_stat_t", .str ("homeassistant/climate/" ++ name ++ "/state")),
    ("mode_stat_tpl", .str ""),
    ("avty_t", .str ("homeassistant/climate/" ++ name ++ "/available")),
    ("pl_avail", .str "online"),
    ("pl_not_avail", .str "offline"),
    ("temp_cmd_t", .str ("homeassistant/climate/" ++ name ++ "/targetTempCmd")),
    ("temp_stat_t", .str ("homeassistant/climate/" ++ name ++ "/state")),
    ("state_topic", .str ("homeassistant/climate/" ++ name ++ "/state")),
    ("temp_stat_tpl", .str ""),
    ("curr_temp_t", .str ("homeassistant/climate/" ++ name ++ "/state")),
    ("curr_temp_tpl", .str ""),
    ("min_temp", .str "60"),
    ("max_temp", .str "110"),
    ("temp_step", .str "0.5"),
    ("modes", .strlist ["off", "heat"]) ]

/-- The closed set of device classes handled by the `template_config_*`
family in `app.py` (the builder dispatch of the spec). -/
inductive DeviceClass where
  | motion | temperature | humidity | light | switch | climate
deriving DecidableEq, Repr

/-- The builder dispatch: one `template_config_*` function per class. -/
def build : DeviceClass → String → Config
  | .motion, name => template_config_motion name
  | .temperature, name => template_config_temperature name
  | .humidity, name => template_config_humidity name
  | .light, name => template_config_light name
  | .switch, name => template_config_switch name
  | .climate, name => template_config_climate name

/-- The fixed device catalog built in `main` (`configs = [...]`), as
(class, name) pairs in source order.  The climate entry
`bedroom-heater1` is commented out in the source and therefore absent. -/
def catalog : List (DeviceClass × String) :=
  [ (.motion, "bedroom-motion1"),
    (.temperature, "bedroom-temp1"),
    (.humidity, "bedroom-temp1"),
    (.light, "bedroom-light1"),
    (.light, "bedroom-lamp1"),
    (.light, "bedroom-lamp2"),
    (.motion, "office-motion1"),
    (.temperature, "office-temp1"),
    (.humidity, "office-temp1"),
    (.light, "bedroom-light1"),
    (.light, "do-not-disturb-light1"),
    (.motion, "lroom-motion1"),
    (.temperature, "lroom-temp1"),
    (.humidity, "lroom-temp1"),
    (.light, "lroom-light1"),
    (.switch, "lroom-tv1"),
    (.motion, "garage-motion1"),
    (.temperature, "garage-freezer-temp1"),
    (.light, "garage-light1"),
    (.switch, "garage-tv1"),
    (.motion, "garden-motion1"),
    (.light, "garden-path-lights1"),
    (.switch, "garden-founain1") ]

/-- The `configs` list of `main`. -/
def configs : List Config := catalog.map fun p => build p.1 p.2

/-- One batch of random draws handed to a `random_state_*` generator.
`choice` models `random.choice` on a two-element list, `u1`/`u2` the
first and second `random.uniform` call of the generator, and `rint`
the `random.randint(0, 255)` call (non-negative by its contract). -/
structure Draws where
  choice : Fin 2
  u1 : ℚ
  u2 : ℚ
  rint : Nat
deriving DecidableEq, Repr

/-- `random_state_binary_sensor` from `app.py`:
`json.dumps({'state': random.choice(["ON", "OFF"])})` (the dict
before `json.dumps`; `publish_random_state` applies `pyDumps`). -/
def random_state_binary_sensor (d : Draws) : Config :=
  [ ("state", .str (["ON", "OFF"].get d.choice)) ]

/-- `random_state_sensor` from `app.py`: temperature drawn by
`random.uniform(60.0, 110.0)` rendered `:.1f`, humidity by
`random.uniform(0.0, 100.0)` rendered `:.0f`. -/
def random_state_sensor (d : Draws) : Config :=
  [ ("temperature", .numStr 1 (roundTo 1 d.u1)),
    ("humidity", .numStr 0 (roundTo 0 d.u2)) ]

/-- `random_state_switch` from `app.py`. -/
def random_state_switch (d : Draws) : Config :=
  [ ("state", .str (["ON", "OFF"].get d.choice)) ]

/-- `random_state_light` from `app.py`: ON/OFF plus
`random.randint(0, 255)` brightness. -/
def random_state_light (d : Draws) : Config :=
  [ ("state", .str (["ON", "OFF"].get d.choice)),
    ("brightness", .int (d.rint : Int)) ]

/-- `random_state_climate` from `app.py`: mode from `["off", "heat"]`,
target and current temperature by `random.uniform(60.0, 110.0)`
rendered `:.2f`. -/
def random_state_climate (d : Draws) : Config :=
  [ ("mode", .str (["off", "heat"].get d.choice)),
    ("target_temp", .numStr 2 (roundTo 2 d.u1)),
    ("current_temp", .numStr 2 (roundTo 2 d.u2)) ]

/-- The `globals()[f'random_state_{component}']` lookup of
`publish_random_state`: dispatch on the component string; `none`
models the `KeyError` when no such generator exists. -/
def random_state_dispatch (component : String) (d : Draws) : Option Config :=
  match component with
  | "binary_sensor" => some (random_state_binary_sensor d)
  | "sensor" => some (random_state_sensor d)
  | "switch" => some (random_state_switch d)
  | "light" => some (random_state_light d)
  | "climate" => some (random_state_climate d)
  | _ => none

/-- Observable effects of a run: MQTT publishes (topic, payload,
retain flag), subscriptions, and `time.sleep` pauses. -/
inductive Event where
  | pub (topic payload : String) (retain : Bool)
  | sub (topic : String)
  | sleep (secs : Nat)
deriving DecidableEq, Repr

/-- `publish_random_state` from `app.py`: append `/state` to the
parent topic, extract the component (`topic.split('/')[1]`, `none` on
`IndexError`), dispatch the generator (`none` on `KeyError`), unwrap
the payload to the bare state token when the state topic contains both
`binary_sensor` and `motion` (`none` models the `KeyError` of
`json.loads(state)['state']` when the dict has no `state` key), and
publish retained. -/
def publish_random_state (topic : String) (d : Draws) : Option Event :=
  let state_topic := topic ++ "/state"
  match (pySplitSlash topic)[1]? with
  | none => none
  | some component =>
    match random_state_dispatch component d with
    | none => none
    | some stateDict =>
      let payload? : Option String :=
        if pyIn "binary_sensor" state_topic && pyIn "motion" state_topic then
          match stateDict.lookup "state" with
          | some (.str v) => some v
          | _ => none
        else some (pyDumps stateDict)
      payload?.map fun pay => Event.pub state_topic pay true

/-- The AnnouncingDiscovery phase of `main`: for each config, compute
the parent topic, remember it, and publish the config retained at
`<parent>/config`.  Returns (events, parent topics, crashed); a crash
(`get_parent_topic` failing) aborts the loop, keeping the events
already issued. -/
def announce_phase : List Config → List Event × List String × Bool
  | [] => ([], [], false)
  | c :: cs =>
    match get_parent_topic c with
    | none => ([], [], true)
    | some t =>
      let rest := announce_phase cs
      (Event.pub (t ++ "/config") (pyDumps c) true :: rest.1, t :: rest.2.1, rest.2.2)

/-- The SettlingInitialState phase of `main`: for each parent topic in
order, publish a random state, `time.sleep(5)`, publish a second
random state.  `k` numbers the generator invocations for the oracle.
A crash inside `publish_random_state` aborts, keeping prior events. -/
def settle_phase (oracle : Nat → Draws) : List String → Nat → List Event × Bool
  | [], _ => ([], false)
  | t :: ts, k =>
    match publish_random_state t (oracle k) with
    | none => ([], true)
    | some e1 =>
      match publish_random_state t (oracle (k + 1)) with
      | none => ([e1, .sleep 5], true)
      | some e2 =>
        let rest := settle_phase oracle ts (k + 2)
        (e1 :: .sleep 5 :: e2 :: rest.1, rest.2)

/-- The parent-topic list `topics` accumulated by `main`. -/
def mainTopics : List String := (announce_phase configs).2.1

/-- The SteadyStatePolling phase of `main` (`while True`), run for
`fuel` iterations starting at iteration `i`: each iteration draws
`random.choice(topics)` (the `pick` oracle, in range by the contract
of `random.choice`), publishes one random state for it, and
`time.sleep(5)`.  A crash in `publish_random_state` aborts. -/
def steady_run (ts : List String) (pick : Nat → Fin ts.length) (oracle : Nat → Draws) :
    Nat → Nat → List Event × Bool
  | _, 0 => ([], false)
  | i, fuel + 1 =>
    match publish_random_state (ts.get (pick i)) (oracle i) with
    | none => ([], true)
    | some e =>
      let rest := steady_run ts pick oracle (i + 1) fuel
      (e :: .sleep 5 :: rest.1, rest.2)

/-- The prefix of a `main` run up to (not including) the steady-state
loop: announce all configs, then settle all topics.  Returns the event
trace and whether the run crashed (an uncaught exception). -/
def run_start (cs : List Config) (oracle : Nat → Draws) : List Event × Bool :=
  let a := announce_phase cs
  if a.2.2 then (a.1, true)
  else
    let s := settle_phase oracle a.2.1 0
    (a.1 ++ s.1, s.2)

/-- Spec-side definition (refinement target for the naming claim):
the protocol component name per device class, following the words of
the spec (motion maps to binary_sensor, temperature and humidity to
sensor, the rest to their own name). -/
def specComponent : DeviceClass → String
  | .motion => "binary_sensor"
  | .temperature => "sensor"
  | .humidity => "sensor"
  | .light => "light"
  | .switch => "switch"
  | .climate => "climate"

/-- Spec-side definition (refinement target for the naming claim):
the topic slug, following the words of the spec (device id suffixed
with T for temperature, H for humidity, unsuffixed otherwise). -/
def specSlug : DeviceClass → String → String
  | .temperature, n => n ++ "T"
  | .humidity, n => n ++ "H"
  | .motion, n => n
  | .light, n => n
  | .switch, n => n
  | .climate, n => n

/-- Spec-side shape (refinement target for the settle-phase claim):
for every topic in order, two retained state publishes to that topic
with a 5-unit sleep between them. -/
inductive SettleShape : List String → List Event → Prop where
  | nil : SettleShape [] []
  | cons (t : String) (ts : List String) (p1 p2 : String) (evs : List Event) :
      SettleShape ts evs →
      SettleShape (t :: ts)
        (.pub (t ++ "/state") p1 true :: .sleep 5 :: .pub (t ++ "/state") p2 true :: evs)

/-- Spec-side shape (refinement target for the steady-state claim):
iteration `i` publishes one retained state to the topic chosen by the
`pick` oracle and then sleeps the fixed interval, for `fuel`
iterations. -/
def SteadyShape (ts : List String) (pick : Nat → Fin ts.length) :
    Nat → Nat → List Event → Prop
  | _, 0, evs => evs = []
  | i, fuel + 1, evs =>
    ∃ pay rest,
      evs = .pub (ts.get (pick i) ++ "/state") pay true :: .sleep 5 :: rest ∧
      SteadyShape ts pick (i + 1) fuel rest

/-- Read a numeric dict field (the rational value of an f-string
rendered number). -/
def getNum (k : String) (c : Config) : Option ℚ :=
  match c.lookup k with
  | some (.numStr _ q) => some q
  | _ => none

/-- Read a string dict field. -/
def getStr (k : String) (c : Config) : Option String :=
  match c.lookup k with
  | some (.str s) => some s
  | _ => none

/-- Read an integer dict field. -/
def getInt (k : String) (c : Config) : Option Int :=
  match c.lookup k with
  | some (.int n) => some n
  | _ => none

/-- A discovery config whose component (`doorbell`) has no
`random_state_*` generator: the input that sends an unrecognized
device class into the generator dispatch. -/
def badConfig : Config :=
  [ ("name", .str "front1"),
    ("state_topic", .str "homeassistant/doorbell/front1/state") ]

/-- A catalog holding the unrecognized-component device followed by a
perfectly ordinary motion device. -/
def badCatalog : List Config := [badConfig, template_config_motion "x-motion1"]

/-- Modelled from the spec: the lab-topic surface is absent from
`src/app.py` (it lives in another variant of the program that is not
under `src/`).  Per the spec, the program publishes
`<namespace>/lab4/group<N>/completed = "False"` and subscribes to the
same topic, for every N in `[0, labs)`. -/
def lab_topics_phase (ns : String) (labs : Nat) : List Event :=
  (List.range labs).flatMap fun n =>
    [ .pub (ns ++ "/lab4/group" ++ toString n ++ "/completed") "False" false,
      .sub (ns ++ "/lab4/group" ++ toString n ++ "/completed") ]

/-! Infrastructure lemmas about the string model. -/

theorem str_ext {a b : String} (h : a.data = b.data) : a = b := by
  cases a; cases b; exact congrArg String.mk h

theorem strData_append (a b : String) : (a ++ b).data = a.data ++ b.data := rfl

theorem strMk_data (s : String) : String.mk s.data = s := rfl

theorem splitChars_ne_nil (l : List Char) : splitChars l ≠ [] := by
  induction l with
  | nil => simp [splitChars]
  | cons c rest ih =>
    unfold splitChars
    split
    · simp
    · split
      · simp
      · simp

theorem splitChars_append (a b : List Char) :
    splitChars (a ++ '/' :: b) = splitChars a ++ splitChars b := by
  induction a with
  | nil => simp [splitChars]
  | cons c a ih =>
    by_cases hc : c = '/'
    · subst hc
      simp [splitChars, ih]
    · obtain ⟨r, rs, hr⟩ : ∃ r rs, splitChars a = r :: rs := by
        cases h : splitChars a with
        | nil => exact absurd h (splitChars_ne_nil a)
        | cons r rs => exact ⟨r, rs, rfl⟩
      simp only [List.cons_append, splitChars, if_neg hc, hr]
      rw [List.append_eq, ih, hr]
      simp [List.cons_append]

theorem splitChars_eq_single {l : List Char} (h : '/' ∉ l) : splitChars l = [l] := by
  induction l with
  | nil => rfl
  | cons c rest ih =>
    simp only [List.mem_cons, not_or] at h
    have hc : ¬ c = '/' := fun hcc => h.1 hcc.symm
    simp [splitChars, if_neg hc, ih h.2]

/-- The parent of a canonical `homeassistant/<comp>/<slug>/state`
topic, as computed by the split/join surgery of `get_parent_topic`. -/
theorem parent_topic_canonical (comp slug : String)
    (hc : '/' ∉ comp.data) (hs : '/' ∉ slug.data) :
    joinSlash (pySplitSlash ("homeassistant/" ++ comp ++ "/" ++ slug ++ "/state")).dropLast
      = "homeassistant/" ++ comp ++ "/" ++ slug := by
  have h1 : ("homeassistant/" : String).data = "homeassistant".data ++ ['/'] := rfl
  have h2 : ("/state" : String).data = '/' :: "state".data := rfl
  have h3 : ("/" : String).data = ['/'] := rfl
  have hdata : ("homeassistant/" ++ comp ++ "/" ++ slug ++ "/state").data
      = "homeassistant".data ++ '/' :: (comp.data ++ '/' :: (slug.data ++ '/' :: "state".data)) := by
    simp [strData_append, h1, h2, h3, List.append_assoc]
  rw [pySplitSlash, hdata, splitChars_append, splitChars_append, splitChars_append,
    splitChars_eq_single (show ('/' : Char) ∉ "homeassistant".data by decide),
    splitChars_eq_single hc, splitChars_eq_single hs,
    splitChars_eq_single (show ('/' : Char) ∉ "state".data by decide)]
  show joinSlash [String.mk "homeassistant".data, String.mk comp.data, String.mk slug.data] = _
  show "homeassistant" ++ "/" ++ (comp ++ "/" ++ slug) = _
  apply str_ext
  simp [strData_append, h1, h3, List.append_assoc]

theorem publish_shape {t : String} {d : Draws} {e : Event}
    (h : publish_random_state t d = some e) :
    ∃ pay, e = .pub (t ++ "/state") pay true := by
  rcases hcomp : (pySplitSlash t)[1]? with _ | comp
  · simp only [publish_random_state, hcomp] at h
    exact absurd h (by simp)
  · rcases hgen : random_state_dispatch comp d with _ | gen
    · simp only [publish_random_state, hcomp, hgen] at h
      exact absurd h (by simp)
    · simp only [publish_random_state, hcomp, hgen] at h
      rcases Option.map_eq_some'.mp h with ⟨pay, _, he⟩
      exact ⟨pay, he.symm⟩

theorem round_le_round {x y : ℚ} (h : x ≤ y) : round x ≤ round y := by
  rw [round_eq, round_eq]
  exact Int.floor_mono (by linarith)

theorem le_roundTo {q : ℚ} {n : ℤ} (p : Nat) (h : (n : ℚ) ≤ q) : (n : ℚ) ≤ roundTo p q := by
  unfold roundTo
  rw [le_div_iff₀ (by positivity)]
  have h1 : round ((n : ℚ) * (10 : ℚ) ^ p) ≤ round (q * (10 : ℚ) ^ p) :=
    round_le_round (mul_le_mul_of_nonneg_right h (by positivity))
  have h2 : round ((n : ℚ) * (10 : ℚ) ^ p) = n * 10 ^ p := by
    have hcast : ((n : ℚ) * (10 : ℚ) ^ p) = ((n * 10 ^ p : ℤ) : ℚ) := by push_cast; ring
    rw [hcast, round_intCast]
  rw [h2] at h1
  calc (n : ℚ) * (10 : ℚ) ^ p = ((n * 10 ^ p : ℤ) : ℚ) := by push_cast; ring
    _ ≤ ((round (q * (10 : ℚ) ^ p) : ℤ) : ℚ) := by exact_mod_cast h1

theorem roundTo_le {q : ℚ} {n : ℤ} (p : Nat) (h : q ≤ (n : ℚ)) : roundTo p q ≤ (n : ℚ) := by
  unfold roundTo
  rw [div_le_iff₀ (by positivity)]
  have h1 : round (q * (10 : ℚ) ^ p) ≤ round ((n : ℚ) * (10 : ℚ) ^ p) :=
    round_le_round (mul_le_mul_of_nonneg_right h (by positivity))
  have h2 : round ((n : ℚ) * (10 : ℚ) ^ p) = n * 10 ^ p := by
    have hcast : ((n : ℚ) * (10 : ℚ) ^ p) = ((n * 10 ^ p : ℤ) : ℚ) := by push_cast; ring
    rw [hcast, round_intCast]
  rw [h2] at h1
  calc ((round (q * (10 : ℚ) ^ p) : ℤ) : ℚ) ≤ ((n * 10 ^ p : ℤ) : ℚ) := by exact_mod_cast h1
    _ = (n : ℚ) * (10 : ℚ) ^ p := by push_cast; ring

theorem choice_two (c : Fin 2) (a b : String) :
    ([a, b].get c) = a ∨ ([a, b].get c) = b := by
  rcases c with ⟨v, hv⟩
  interval_cases v
  · exact Or.inl rfl
  · exact Or.inr rfl

/-- Every parent topic of the real catalog has a recognized component
and a generator whose payload survives the motion unwrap, so
`publish_random_state` never crashes on it, whatever the draws. -/
theorem mainTopics_good :
    ∀ t ∈ mainTopics, ∀ d : Draws, (publish_random_state t d).isSome = true := by
  intro t ht d
  fin_cases ht <;> rfl

theorem settle_ok (ts : List String)
    (hgood : ∀ t ∈ ts, ∀ d : Draws, (publish_random_state t d).isSome = true) :
    ∀ (oracle : Nat → Draws) (k : Nat),
      (settle_phase oracle ts k).2 = false ∧
      SettleShape ts (settle_phase oracle ts k).1 := by
  induction ts with
  | nil => exact fun oracle k => ⟨rfl, .nil⟩
  | cons t ts ih =>
    intro oracle k
    rcases Option.isSome_iff_exists.mp (hgood t (List.mem_cons_self t ts) (oracle k)) with ⟨e1, he1⟩
    rcases Option.isSome_iff_exists.mp (hgood t (List.mem_cons_self t ts) (oracle (k + 1))) with ⟨e2, he2⟩
    obtain ⟨p1, rfl⟩ := publish_shape he1
    obtain ⟨p2, rfl⟩ := publish_shape he2
    have ihh := ih (fun u hu d => hgood u (List.mem_cons_of_mem t hu) d) oracle (k + 2)
    simp only [settle_phase, he1, he2]
    exact ⟨ihh.1, .cons _ _ _ _ _ ihh.2⟩

theorem steady_ok (ts : List String)
    (hgood : ∀ t ∈ ts, ∀ d : Draws, (publish_random_state t d).isSome = true)
    (pick : Nat → Fin ts.length) (oracle : Nat → Draws) :
    ∀ (fuel i : Nat),
      (steady_run ts pick oracle i fuel).2 = false ∧
      SteadyShape ts pick i fuel (steady_run ts pick oracle i fuel).1 := by
  intro fuel
  induction fuel with
  | zero => exact fun i => ⟨rfl, rfl⟩
  | succ fuel ih =>
    intro i
    rcases Option.isSome_iff_exists.mp
        (hgood (ts.get (pick i)) (ts.get_mem _ _) (oracle i)) with ⟨e, he⟩
    obtain ⟨pay, rfl⟩ := publish_shape he
    simp only [steady_run, he]
    exact ⟨(ih (i + 1)).1, ⟨pay, _, rfl, (ih (i + 1)).2⟩⟩

theorem str_append_assoc (a b c : String) : a ++ b ++ c = a ++ (b ++ c) :=
  str_ext (List.append_assoc a.data b.data c.data)

/-- Round trip for any config whose state topic has the canonical
`homeassistant/<comp>/<slug>/state` form: the parent topic plus
`/config` is the announced topic, the parent plus `/state` is the
config's state topic, and every successful state publish goes there. -/
theorem build_roundtrip (comp slug : String) (hc : '/' ∉ comp.data) (hs : '/' ∉ slug.data)
    (c : Config)
    (hst : config_state_topic c = some ("homeassistant/" ++ comp ++ "/" ++ slug ++ "/state")) :
    ∃ p, get_parent_topic c = some p ∧
      config_state_topic c = some (p ++ "/state") ∧
      (announce_phase [c]).1 = [Event.pub (p ++ "/config") (pyDumps c) true] ∧
      (∀ (d : Draws) (e : Event), publish_random_state p d = some e →
        ∃ pay, e = .pub (p ++ "/state") pay true) := by
  have hp : get_parent_topic c = some ("homeassistant/" ++ comp ++ "/" ++ slug) := by
    rw [get_parent_topic, hst, Option.map_some']
    exact congrArg some (parent_topic_canonical comp slug hc hs)
  refine ⟨"homeassistant/" ++ comp ++ "/" ++ slug, hp, ?_, ?_, fun d e h => publish_shape h⟩
  · rw [hst]
  · simp [announce_phase, hp]

/-- C1: the AnnouncingDiscovery phase of the fixed catalog issues one
retained config publish per catalog entry (23 of them, at each entry's
`<parent>/config` topic) — but the topics are NOT pairwise distinct:
entries 3 and 9 are both `template_config_light('bedroom-light1')`
and publish to the same config topic, refuting the distinctness part
of the claim. -/
theorem claim_C1_announce_duplicate_topic :
    (announce_phase configs).2.2 = false ∧
    (announce_phase configs).1
      = List.zipWith (fun t c => Event.pub (t ++ "/config") (pyDumps c) true) mainTopics configs ∧
    (announce_phase configs).1.length = configs.length ∧
    mainTopics.get? 3 = some "homeassistant/light/bedroom-light1" ∧
    mainTopics.get? 9 = some "homeassistant/light/bedroom-light1" ∧
    ¬ (mainTopics.map fun t => t ++ "/config").Nodup :=
  ⟨rfl, rfl, rfl, rfl, rfl, by decide⟩

/-- C2: every builder's state topic follows the spec convention
`homeassistant/<component>/<slug>/state`, and the `bedroom-temp1`
temperature config concretely yields state topic
`homeassistant/sensor/bedroom-temp1T/state`, parent
`homeassistant/sensor/bedroom-temp1T`, and a retained config publish
at `homeassistant/sensor/bedroom-temp1T/config`. -/
theorem claim_C2_state_topic_convention :
    (∀ (cls : DeviceClass) (name : String),
      config_state_topic (build cls name)
        = some ("homeassistant/" ++ specComponent cls ++ "/" ++ specSlug cls name ++ "/state"))
    ∧ config_state_topic (build .temperature "bedroom-temp1")
        = some "homeassistant/sensor/bedroom-temp1T/state"
    ∧ get_parent_topic (build .temperature "bedroom-temp1")
        = some "homeassistant/sensor/bedroom-temp1T"
    ∧ (announce_phase [build .temperature "bedroom-temp1"]).1
        = [Event.pub "homeassistant/sensor/bedroom-temp1T/config"
            (pyDumps (build .temperature "bedroom-temp1")) true] := by
  refine ⟨fun cls name => ?_, rfl, rfl, rfl⟩
  cases cls <;>
    (refine congrArg some ?_; simp only [specComponent, specSlug, str_append_assoc]; rfl)

/-- C3: for every device class and slash-free device id, the parent
topic (state topic with its last segment removed) concatenated with
`/config` is exactly the discovery publish topic and concatenated with
`/state` is exactly the config's state topic, which is where every
state publish for that parent goes. -/
theorem claim_C3_parent_topic_roundtrip :
    ∀ (cls : DeviceClass) (name : String), '/' ∉ name.data →
      ∃ p, get_parent_topic (build cls name) = some p ∧
        config_state_topic (build cls name) = some (p ++ "/state") ∧
        (announce_phase [build cls name]).1
          = [Event.pub (p ++ "/config") (pyDumps (build cls name)) true] ∧
        (∀ (d : Draws) (e : Event), publish_random_state p d = some e →
          ∃ pay, e = .pub (p ++ "/state") pay true) := by
  intro cls name h
  have hT : ('/' : Char) ∉ (name ++ "T").data := by
    simp [strData_append, List.mem_append, h]
  have hH : ('/' : Char) ∉ (name ++ "H").data := by
    simp [strData_append, List.mem_append, h]
  cases cls
  case motion =>
    exact build_roundtrip "binary_sensor" name (by decide) h _
      (by refine congrArg some ?_; simp only [str_append_assoc]; rfl)
  case temperature =>
    exact build_roundtrip "sensor" (name ++ "T") (by decide) hT _
      (by refine congrArg some ?_; simp only [str_append_assoc]; rfl)
  case humidity =>
    exact build_roundtrip "sensor" (name ++ "H") (by decide) hH _
      (by refine congrArg some ?_; simp only [str_append_assoc]; rfl)
  case light =>
    exact build_roundtrip "light" name (by decide) h _
      (by refine congrArg some ?_; simp only [str_append_assoc]; rfl)
  case switch =>
    exact build_roundtrip "switch" name (by decide) h _
      (by refine congrArg some ?_; simp only [str_append_assoc]; rfl)
  case climate =>
    exact build_roundtrip "climate" name (by decide) h _
      (by refine congrArg some ?_; simp only [str_append_assoc]; rfl)

theorem claim_C3_witness :
    ('/' ∉ "bedroom-temp1".data) ∧
    (∃ p, get_parent_topic (build .temperature "bedroom-temp1") = some p ∧
      config_state_topic (build .temperature "bedroom-temp1") = some (p ++ "/state") ∧
      (announce_phase [build .temperature "bedroom-temp1"]).1
        = [Event.pub (p ++ "/config") (pyDumps (build .temperature "bedroom-temp1")) true] ∧
      (∀ (d : Draws) (e : Event), publish_random_state p d = some e →
        ∃ pay, e = .pub (p ++ "/state") pay true)) :=
  ⟨by decide, claim_C3_parent_topic_roundtrip .temperature "bedroom-temp1" (by decide)⟩

/-- C4: for every catalog entry of class motion, every published state
payload is the bare token "ON" or "OFF", whatever the random draws. -/
theorem claim_C4_motion_payloads_bare :
    ∀ (i : Fin catalog.length) (d : Draws), (catalog.get i).1 = .motion →
      ∃ t pay, mainTopics.get? i.val = some t ∧
        publish_random_state t d = some (.pub (t ++ "/state") pay true) ∧
        (pay = "ON" ∨ pay = "OFF") := by
  intro i d hm
  fin_cases i <;>
    first
      | exact absurd hm (by decide)
      | exact ⟨_, _, rfl, rfl, choice_two d.choice "ON" "OFF"⟩

theorem claim_C4_witness :
    (catalog.get ⟨0, by decide⟩).1 = DeviceClass.motion ∧
    (∃ t pay, mainTopics.get? 0 = some t ∧
      publish_random_state t (⟨0, 0, 0, 0⟩ : Draws) = some (.pub (t ++ "/state") pay true) ∧
      (pay = "ON" ∨ pay = "OFF")) :=
  ⟨by decide, claim_C4_motion_payloads_bare ⟨0, by decide⟩ ⟨0, 0, 0, 0⟩ (by decide)⟩

/-- C5 counterexample: with a catalog holding one device of an
unrecognized component, the run does crash, but its trace already
holds a publish event (the retained config publish), refuting the
claim that the failure happens before any publishing begins. -/
theorem claim_C5_counterexample :
    (run_start [badConfig] fun _ => (⟨0, 0, 0, 0⟩ : Draws)).2 = true ∧
    (run_start [badConfig] fun _ => (⟨0, 0, 0, 0⟩ : Draws)).1
      = [Event.pub "homeassistant/doorbell/front1/config" (pyDumps badConfig) true] :=
  ⟨rfl, rfl⟩

/-- C5 amended: an unrecognized component reaching the generator
dispatch aborts the run with an uncaught lookup error at the first
state publish for that device — after all discovery config publishes
have been issued — and the device is never silently skipped (no state
publish at all happens, for it or for any later device). -/
theorem claim_C5_unknown_component_aborts_after_announce :
    ∀ oracle : Nat → Draws,
      run_start badCatalog oracle
        = ([Event.pub "homeassistant/doorbell/front1/config" (pyDumps badConfig) true,
            Event.pub "homeassistant/binary_sensor/x-motion1/config"
              (pyDumps (template_config_motion "x-motion1")) true], true) :=
  fun _ => rfl

/-- C6: whenever the random draws obey the contracts of the `random`
calls made by the source (`uniform(60,110)`, `uniform(0,100)`,
`randint(0,255)`), every generated payload field lies within the
documented range, and the enumerated fields take only their documented
values. -/
theorem claim_C6_ranges :
    ∀ d : Draws,
      (60 ≤ d.u1 → d.u1 ≤ 110 →
        ∃ q, getNum "temperature" (random_state_sensor d) = some q ∧ 60 ≤ q ∧ q ≤ 110)
      ∧ (0 ≤ d.u2 → d.u2 ≤ 100 →
        ∃ q, getNum "humidity" (random_state_sensor d) = some q ∧ 0 ≤ q ∧ q ≤ 100)
      ∧ (60 ≤ d.u1 → d.u1 ≤ 110 →
        ∃ q, getNum "target_temp" (random_state_climate d) = some q ∧ 60 ≤ q ∧ q ≤ 110)
      ∧ (60 ≤ d.u2 → d.u2 ≤ 110 →
        ∃ q, getNum "current_temp" (random_state_climate d) = some q ∧ 60 ≤ q ∧ q ≤ 110)
      ∧ (d.rint ≤ 255 →
        ∃ n, getInt "brightness" (random_state_light d) = some n ∧ 0 ≤ n ∧ n ≤ 255)
      ∧ (∃ m, getStr "mode" (random_state_climate d) = some m ∧ (m = "off" ∨ m = "heat"))
      ∧ (∃ s, getStr "state" (random_state_light d) = some s ∧ (s = "ON" ∨ s = "OFF"))
      ∧ (∃ s, getStr "state" (random_state_switch d) = some s ∧ (s = "ON" ∨ s = "OFF"))
      ∧ (∃ s, getStr "state" (random_state_binary_sensor d) = some s ∧ (s = "ON" ∨ s = "OFF")) := by
  intro d
  refine ⟨fun h1 h2 => ⟨roundTo 1 d.u1, rfl, ?_, ?_⟩,
          fun h1 h2 => ⟨roundTo 0 d.u2, rfl, ?_, ?_⟩,
          fun h1 h2 => ⟨roundTo 2 d.u1, rfl, ?_, ?_⟩,
          fun h1 h2 => ⟨roundTo 2 d.u2, rfl, ?_, ?_⟩,
          fun h => ⟨(d.rint : Int), rfl, Int.ofNat_nonneg d.rint, by exact_mod_cast h⟩,
          ⟨_, rfl, choice_two d.choice "off" "heat"⟩,
          ⟨_, rfl, choice_two d.choice "ON" "OFF"⟩,
          ⟨_, rfl, choice_two d.choice "ON" "OFF"⟩,
          ⟨_, rfl, choice_two d.choice "ON" "OFF"⟩⟩
  · exact_mod_cast le_roundTo 1 (show ((60 : ℤ) : ℚ) ≤ d.u1 by exact_mod_cast h1)
  · exact_mod_cast roundTo_le 1 (show d.u1 ≤ ((110 : ℤ) : ℚ) by exact_mod_cast h2)
  · exact_mod_cast le_roundTo 0 (show ((0 : ℤ) : ℚ) ≤ d.u2 by exact_mod_cast h1)
  · exact_mod_cast roundTo_le 0 (show d.u2 ≤ ((100 : ℤ) : ℚ) by exact_mod_cast h2)
  · exact_mod_cast le_roundTo 2 (show ((60 : ℤ) : ℚ) ≤ d.u1 by exact_mod_cast h1)
  · exact_mod_cast roundTo_le 2 (show d.u1 ≤ ((110 : ℤ) : ℚ) by exact_mod_cast h2)
  · exact_mod_cast le_roundTo 2 (show ((60 : ℤ) : ℚ) ≤ d.u2 by exact_mod_cast h1)
  · exact_mod_cast roundTo_le 2 (show d.u2 ≤ ((110 : ℤ) : ℚ) by exact_mod_cast h2)

theorem claim_C6_witness :
    ((60 : ℚ) ≤ (80 : ℚ) ∧ (80 : ℚ) ≤ (110 : ℚ) ∧ (0 : ℚ) ≤ (90 : ℚ) ∧ (90 : ℚ) ≤ (100 : ℚ)
      ∧ (60 : ℚ) ≤ (90 : ℚ) ∧ (90 : ℚ) ≤ (110 : ℚ) ∧ (100 : Nat) ≤ 255)
    ∧ (∃ q, getNum "temperature" (random_state_sensor ⟨0, 80, 90, 100⟩) = some q ∧ 60 ≤ q ∧ q ≤ 110)
    ∧ (∃ q, getNum "humidity" (random_state_sensor ⟨0, 80, 90, 100⟩) = some q ∧ 0 ≤ q ∧ q ≤ 100)
    ∧ (∃ q, getNum "target_temp" (random_state_climate ⟨0, 80, 90, 100⟩) = some q ∧ 60 ≤ q ∧ q ≤ 110)
    ∧ (∃ q, getNum "current_temp" (random_state_climate ⟨0, 80, 90, 100⟩) = some q ∧ 60 ≤ q ∧ q ≤ 110)
    ∧ (∃ n, getInt "brightness" (random_state_light ⟨0, 80, 90, 100⟩) = some n ∧ 0 ≤ n ∧ n ≤ 255) := by
  have h := claim_C6_ranges ⟨0, 80, 90, 100⟩
  exact ⟨⟨by decide, by decide, by decide, by decide, by decide, by decide, by decide⟩,
    h.1 (by decide) (by decide), h.2.1 (by decide) (by decide),
    h.2.2.1 (by decide) (by decide), h.2.2.2.1 (by decide) (by decide),
    h.2.2.2.2.1 (by decide)⟩

/-- C7: the SettlingInitialState phase, run on the program's topic
list, never crashes, and its trace is exactly two retained state
publishes per parent topic in catalog order, with a 5-unit sleep
between the two, whatever the random draws. -/
theorem claim_C7_settle_publishes_twice :
    ∀ oracle : Nat → Draws,
      (settle_phase oracle mainTopics 0).2 = false ∧
      SettleShape mainTopics (settle_phase oracle mainTopics 0).1 :=
  fun oracle => settle_ok mainTopics mainTopics_good oracle 0

/-- C8: the lab-topic surface publishes
`<namespace>/lab4/group<N>/completed = "False"` and subscribes to the
same topic for every N below the configured lab count (modelled from
the spec; this surface is not in `src/app.py`). -/
theorem claim_C8_lab_topics :
    ∀ (ns : String) (labs N : Nat), N < labs →
      Event.pub (ns ++ "/lab4/group" ++ toString N ++ "/completed") "False" false
          ∈ lab_topics_phase ns labs ∧
      Event.sub (ns ++ "/lab4/group" ++ toString N ++ "/completed")
          ∈ lab_topics_phase ns labs := by
  intro ns labs N h
  constructor <;>
    exact List.mem_flatMap.mpr ⟨N, List.mem_range.mpr h, by simp⟩

theorem claim_C8_witness :
    0 < 10 ∧
    (Event.pub ("homeassistant" ++ "/lab4/group" ++ toString 0 ++ "/completed") "False" false
        ∈ lab_topics_phase "homeassistant" 10 ∧
      Event.sub ("homeassistant" ++ "/lab4/group" ++ toString 0 ++ "/completed")
        ∈ lab_topics_phase "homeassistant" 10) :=
  ⟨by decide, claim_C8_lab_topics "homeassistant" 10 0 (by decide)⟩

/-- C9: the SteadyStatePolling loop, for any number of iterations,
never sets the crash flag (no internal terminal state), and each
iteration publishes exactly one retained random state to the topic the
pick oracle chose from the full topic set, then sleeps the fixed
interval. -/
theorem claim_C9_steady_loop :
    ∀ (pick : Nat → Fin mainTopics.length) (oracle : Nat → Draws) (i fuel : Nat),
      (steady_run mainTopics pick oracle i fuel).2 = false ∧
      SteadyShape mainTopics pick i fuel (steady_run mainTopics pick oracle i fuel).1 :=
  fun pick oracle i fuel => steady_ok mainTopics mainTopics_good pick oracle fuel i

/-- C10: the bare-token unwrap of `publish_random_state` fires exactly
when the state topic string holds both substrings `binary_sensor` and
`motion`: a binary_sensor topic without `motion` gets the wrapped
`json.dumps` document unchanged (first conjunct, concretely), a false
condition always publishes the wrapped document (second), and a true
condition always publishes the bare `state` field (third). -/
theorem claim_C10_unwrap_condition :
    (∀ d : Draws,
      publish_random_state "homeassistant/binary_sensor/garage-door1" d
        = some (.pub "homeassistant/binary_sensor/garage-door1/state"
            (pyDumps (random_state_binary_sensor d)) true))
    ∧ (∀ (t comp : String) (gen : Config) (d : Draws),
        (pySplitSlash t)[1]? = some comp →
        random_state_dispatch comp d = some gen →
        (pyIn "binary_sensor" (t ++ "/state") && pyIn "motion" (t ++ "/state")) = false →
        publish_random_state t d = some (.pub (t ++ "/state") (pyDumps gen) true))
    ∧ (∀ (t comp : String) (gen : Config) (d : Draws) (v : String),
        (pySplitSlash t)[1]? = some comp →
        random_state_dispatch comp d = some gen →
        (pyIn "binary_sensor" (t ++ "/state") && pyIn "motion" (t ++ "/state")) = true →
        gen.lookup "state" = some (.str v) →
        publish_random_state t d = some (.pub (t ++ "/state") v true)) := by
  refine ⟨fun d => rfl, ?_, ?_⟩
  · intro t comp gen d hc hg hcond
    simp [publish_random_state, hc, hg, hcond]
  · intro t comp gen d v hc hg hcond hstate
    simp [publish_random_state, hc, hg, hcond, hstate]

theorem claim_C10_witness :
    ((pySplitSlash "homeassistant/switch/lroom-tv1")[1]? = some "switch")
    ∧ (random_state_dispatch "switch" (⟨0, 0, 0, 0⟩ : Draws)
        = some (random_state_switch ⟨0, 0, 0, 0⟩))
    ∧ ((pyIn "binary_sensor" ("homeassistant/switch/lroom-tv1" ++ "/state")
        && pyIn "motion" ("homeassistant/switch/lroom-tv1" ++ "/state")) = false)
    ∧ publish_random_state "homeassistant/switch/lroom-tv1" (⟨0, 0, 0, 0⟩ : Draws)
        = some (.pub ("homeassistant/switch/lroom-tv1" ++ "/state")
            (pyDumps (random_state_switch ⟨0, 0, 0, 0⟩)) true) :=
  ⟨rfl, rfl, rfl,
    claim_C10_unwrap_condition.2.1 "homeassistant/switch/lroom-tv1" "switch"
      (random_state_switch ⟨0, 0, 0, 0⟩) ⟨0, 0, 0, 0⟩ rfl rfl rfl⟩

end App



